import Mathlib

/-!
Shallow embedding of `examples/status.c` (libgit2 "status" example) and
verification of its specification claims.

C strings that may be NULL are modelled as `Option String`; the status
bitmask is modelled as a structure of `Bool` fields (the libgit2
`GIT_STATUS_*` constants are pairwise distinct single bits, and
`GIT_STATUS_CURRENT` is the zero mask, so a mask equality test in C is
a structure equality test here).  The external libgit2 calls that the
example performs are modelled by an explicit environment record.
-/

set_option maxHeartbeats 1000000

/-- Result of a bounded `strncmp(s, prefix, n) == 0` test on C strings,
as a prefix test on the character lists (used for the literal prefix
matches in `show_branch` and `parse_opts`). -/
def hasPrefixChars : List Char → List Char → Bool
  | [], _ => true
  | _, [] => false
  | p :: ps, c :: cs => p = c && hasPrefixChars ps cs

/-- Formatting a possibly-NULL C string with printf `%s`.  The example
never passes NULL in any scenario covered by the claims; glibc would
print "(null)". -/
def fmt_cstr : Option String → String
  | some s => s
  | none => "(null)"

/-- Status bitmask of one entry (`git_status_t`).  `GIT_STATUS_CURRENT`
is the empty mask, each other constant is a distinct single bit. -/
structure Status where
  index_new : Bool
  index_modified : Bool
  index_deleted : Bool
  index_renamed : Bool
  index_typechange : Bool
  wt_new : Bool
  wt_modified : Bool
  wt_deleted : Bool
  wt_renamed : Bool
  wt_typechange : Bool
  ignored : Bool
  conflicted : Bool
deriving DecidableEq, Repr

/-- The zero mask `GIT_STATUS_CURRENT`. -/
def Status.current : Status :=
  ⟨false, false, false, false, false, false, false, false, false, false, false, false⟩

/-- The mask that is exactly `GIT_STATUS_WT_NEW`. -/
def Status.wtNewOnly : Status :=
  { Status.current with wt_new := true }

/-- The mask that is exactly `GIT_STATUS_IGNORED`. -/
def Status.ignoredOnly : Status :=
  { Status.current with ignored := true }

/-- The mask that is exactly `GIT_STATUS_CONFLICTED`. -/
def Status.conflictedOnly : Status :=
  { Status.current with conflicted := true }

/-- One side of a `git_diff_delta` (`git_diff_file`): the path may be
NULL, the mode is a Nat (`git_filemode_t`). -/
structure DiffFile where
  path : Option String
  mode : Nat
deriving DecidableEq, Repr

/-- A `git_diff_delta` as consumed by the example: old and new file. -/
structure DiffDelta where
  old_file : DiffFile
  new_file : DiffFile
deriving DecidableEq, Repr

/-- A `git_status_entry`: status mask plus the two optional deltas. -/
structure StatusEntry where
  status : Status
  head_to_index : Option DiffDelta
  index_to_workdir : Option DiffDelta
deriving DecidableEq, Repr

/-- `GIT_FILEMODE_COMMIT` (a gitlink / submodule entry), octal 0160000. -/
def GIT_FILEMODE_COMMIT : Nat := 0o160000

/-- The four submodule status bits that `print_short` inspects
(`GIT_SUBMODULE_STATUS_WD_*`). -/
structure SmStatus where
  wd_modified : Bool
  wd_index_modified : Bool
  wd_wd_modified : Bool
  wd_untracked : Bool
deriving DecidableEq, Repr

/-! ## Option parsing (`parse_opts`, status.c lines 394-448) -/

def FORMAT_DEFAULT : Nat := 0
def FORMAT_LONG : Nat := 1
def FORMAT_SHORT : Nat := 2
def FORMAT_PORCELAIN : Nat := 3

def MAX_PATHSPEC : Nat := 8

/-- The `git_status_options.flags` bits that the example manipulates. -/
structure StatusOptFlags where
  include_untracked : Bool
  include_ignored : Bool
  recurse_untracked_dirs : Bool
  exclude_submodules : Bool
  renames_head_to_index : Bool
  sort_case_sensitively : Bool
deriving DecidableEq, Repr

/-- The `struct opts` record filled in by `parse_opts` (the C `npaths`
counter is `pathspec.length` here). -/
structure Opts where
  flags : StatusOptFlags
  repodir : String
  pathspec : List String
  format : Nat
  zterm : Bool
  showbranch : Bool
deriving Repr

/-- Initial options as set up in `main` before `parse_opts` runs
(status.c lines 65-72). -/
def initial_opts : Opts :=
  { flags :=
      { include_untracked := true
        include_ignored := false
        recurse_untracked_dirs := false
        exclude_submodules := false
        renames_head_to_index := true
        sort_case_sensitively := true }
    repodir := "."
    pathspec := []
    format := FORMAT_DEFAULT
    zterm := false
    showbranch := false }

/-- The C test `a[0] != '-'` negated: true when the first character of
the argument is a dash (an empty argument counts as a non-option). -/
def first_char_is_dash (a : String) : Bool :=
  match a.data with
  | c :: _ => c = '-'
  | [] => false

/-- Processing of a single `argv` token by the loop body of
`parse_opts` (status.c lines 398-438).  Fatal calls (`fatal`,
`check_lg2(-1, ...)`) are `Except.error`. -/
def parse_one (o : Opts) (a : String) : Except String Opts :=
  if first_char_is_dash a = false then
    if o.pathspec.length < MAX_PATHSPEC then
      Except.ok { o with pathspec := o.pathspec ++ [a] }
    else
      Except.error "Example only supports a limited pathspec"
  else if a = "-s" ∨ a = "--short" then
    Except.ok { o with format := FORMAT_SHORT }
  else if a = "--long" then
    Except.ok { o with format := FORMAT_LONG }
  else if a = "--porcelain" then
    Except.ok { o with format := FORMAT_PORCELAIN }
  else if a = "-b" ∨ a = "--branch" then
    Except.ok { o with showbranch := true }
  else if a = "-z" then
    Except.ok { o with
      zterm := true
      format := if o.format = FORMAT_DEFAULT then FORMAT_PORCELAIN else o.format }
  else if a = "--ignored" then
    Except.ok { o with flags := { o.flags with include_ignored := true } }
  else if a = "-uno" ∨ a = "--untracked-files=no" then
    Except.ok { o with flags := { o.flags with include_untracked := false } }
  else if a = "-unormal" ∨ a = "--untracked-files=normal" then
    Except.ok { o with flags := { o.flags with include_untracked := true } }
  else if a = "-uall" ∨ a = "--untracked-files=all" then
    Except.ok { o with flags := { o.flags with
      include_untracked := true
      recurse_untracked_dirs := true } }
  else if a = "--ignore-submodules=all" then
    Except.ok { o with flags := { o.flags with exclude_submodules := true } }
  else if hasPrefixChars "--git-dir=".data a.data then
    Except.ok { o with repodir := String.mk (a.data.drop 10) }
  else
    Except.error "Unsupported option"

/-- The `for` loop of `parse_opts` over the remaining arguments. -/
def parse_opts_go : Opts → List String → Except String Opts
  | o, [] => Except.ok o
  | o, a :: rest =>
    match parse_one o a with
    | Except.ok o₁ => parse_opts_go o₁ rest
    | Except.error e => Except.error e

/-- `parse_opts` on `argv[1..]`: the token loop followed by the
post-parse normalization (status.c lines 440-447). -/
def parse_opts (args : List String) : Except String Opts :=
  match parse_opts_go initial_opts args with
  | Except.error e => Except.error e
  | Except.ok o =>
    let o := if o.format = FORMAT_DEFAULT then { o with format := FORMAT_LONG } else o
    let o := if o.format = FORMAT_LONG then { o with showbranch := true } else o
    Except.ok o

/-! ## Branch header (`show_branch`, status.c lines 116-140) -/

/-- Outcome of `git_repository_head`: unborn branch, not found, a
reference whose full name is `name`, or any other (fatal) error. -/
inductive HeadResult where
  | unborn : HeadResult
  | notFound : HeadResult
  | ok : String → HeadResult
  | err : HeadResult
deriving DecidableEq, Repr

/-- Shortening of the HEAD reference name: strip a leading
"refs/heads/" (11 characters) when present, else keep the full name
(status.c lines 127-129). -/
def head_short_name (name : String) : String :=
  if hasPrefixChars "refs/heads/".data name.data then
    String.mk (name.data.drop 11)
  else name

/-- The `show_branch` function: the banner written to stdout, or a
fatal error for a HEAD resolution failure other than unborn/not-found.
-/
def show_branch (head : HeadResult) (format : Nat) : Except String String :=
  match head with
  | HeadResult.err => Except.error "failed to get current branch"
  | HeadResult.unborn =>
    if format = FORMAT_LONG then
      Except.ok ("# On branch " ++ "Not currently on any branch." ++ "\n")
    else
      Except.ok ("## " ++ "HEAD (no branch)" ++ "\n")
  | HeadResult.notFound =>
    if format = FORMAT_LONG then
      Except.ok ("# On branch " ++ "Not currently on any branch." ++ "\n")
    else
      Except.ok ("## " ++ "HEAD (no branch)" ++ "\n")
  | HeadResult.ok name =>
    if format = FORMAT_LONG then
      Except.ok ("# On branch " ++ head_short_name name ++ "\n")
    else
      Except.ok ("## " ++ head_short_name name ++ "\n")

/-! ## Long renderer (`print_long`, status.c lines 142-288)

Each of the four passes is a tail-recursive function over the entry
list carrying the loop state of the C code.  Reading through a NULL
delta pointer (undefined behavior in C) is `Except.error ()`. -/

/-- Index-side glyph selection of pass 1 (status.c lines 165-174):
five conditional overwrites of `istatus`, starting from NULL. -/
def long_istatus (st : Status) : Option String :=
  let istatus : Option String := none
  let istatus := if st.index_new then some "new file: " else istatus
  let istatus := if st.index_modified then some "modified: " else istatus
  let istatus := if st.index_deleted then some "deleted:  " else istatus
  let istatus := if st.index_renamed then some "renamed:  " else istatus
  let istatus := if st.index_typechange then some "typechange:" else istatus
  istatus

/-- Worktree-side glyph selection of pass 2 (status.c lines 211-218). -/
def long_wstatus (st : Status) : Option String :=
  let wstatus : Option String := none
  let wstatus := if st.wt_modified then some "modified: " else wstatus
  let wstatus := if st.wt_deleted then some "deleted:  " else wstatus
  let wstatus := if st.wt_renamed then some "renamed:  " else wstatus
  let wstatus := if st.wt_typechange then some "typechange:" else wstatus
  wstatus

/-- The path portion of a long-format body line (status.c lines
189-192 and 234-237): `old -> new` when both paths are present and
differ, otherwise `old ? old : new`. -/
def pathField (old_path new_path : Option String) : String :=
  match old_path, new_path with
  | some op, some np => if op ≠ np then op ++ " -> " ++ np else op
  | some op, none => op
  | none, _ => fmt_cstr new_path

def pass1_header : String :=
  "# Changes to be committed:\n" ++
  "#   (use \"git reset HEAD <file>...\" to unstage)\n" ++
  "#\n"

/-- The second line of the pass-2 header (status.c line 225): the
"/rm" text is inserted exactly when `rm_in_workdir` was set. -/
def pass2_header_line2 (rm_in_workdir : Bool) : String :=
  "#   (use \"git add" ++ (if rm_in_workdir then "/rm" else "") ++
  " <file>...\" to update what will be committed)\n"

def pass2_header (rm_in_workdir : Bool) : String :=
  "# Changes not staged for commit:\n" ++
  pass2_header_line2 rm_in_workdir ++
  "#   (use \"git checkout -- <file>...\" to discard changes in working directory)\n" ++
  "#\n"

def pass3_header : String :=
  "# Untracked files:\n" ++
  "#   (use \"git add <file>...\" to include in what will be committed)\n" ++
  "#\n"

def pass4_header : String :=
  "# Ignored files:\n" ++
  "#   (use \"git add -f <file>...\" to include in what will be committed)\n" ++
  "#\n"

/-- Pass 1, "Changes to be committed" (status.c lines 154-193).  State:
`header` flag, `rm_in_workdir` flag, accumulated output. -/
def pass1_go : List StatusEntry → Bool → Bool → String →
    Except Unit (Bool × Bool × String)
  | [], header, rm, out => Except.ok (header, rm, out)
  | s :: rest, header, rm, out =>
    if s.status = Status.current then
      pass1_go rest header rm out
    else
      let rm := rm || s.status.wt_deleted
      match long_istatus s.status with
      | none => pass1_go rest header rm out
      | some istatus =>
        match s.head_to_index with
        | none => Except.error ()
        | some d =>
          let hdr := if header then "" else pass1_header
          pass1_go rest true rm
            (out ++ hdr ++ "#\t" ++ istatus ++ "  " ++
              pathField d.old_file.path d.new_file.path ++ "\n")

/-- Pass 2, "Changes not staged for commit" (status.c lines 203-238).
The delta is read only after the NULL test in the guard, so this pass
is total.  State: `header` flag and accumulated output. -/
def pass2_go (rm_in_workdir : Bool) : List StatusEntry → Bool → String → Bool × String
  | [], header, out => (header, out)
  | s :: rest, header, out =>
    if s.status = Status.current ∨ s.index_to_workdir = none then
      pass2_go rm_in_workdir rest header out
    else
      match long_wstatus s.status with
      | none => pass2_go rm_in_workdir rest header out
      | some wstatus =>
        match s.index_to_workdir with
        | none => pass2_go rm_in_workdir rest header out
        | some d =>
          let hdr := if header then "" else pass2_header rm_in_workdir
          pass2_go rm_in_workdir rest true
            (out ++ hdr ++ "#\t" ++ wstatus ++ "  " ++
              pathField d.old_file.path d.new_file.path ++ "\n")

/-- Pass 3, untracked files (status.c lines 250-264): entries whose
mask is exactly `GIT_STATUS_WT_NEW`; the `index_to_workdir` delta is
dereferenced without a NULL test. -/
def pass3_go : List StatusEntry → Bool → String → Except Unit (Bool × String)
  | [], header, out => Except.ok (header, out)
  | s :: rest, header, out =>
    if s.status = Status.wtNewOnly then
      match s.index_to_workdir with
      | none => Except.error ()
      | some d =>
        let hdr := if header then "" else pass3_header
        pass3_go rest true (out ++ hdr ++ "#\t" ++ fmt_cstr d.old_file.path ++ "\n")
    else
      pass3_go rest header out

/-- Pass 4, ignored files (status.c lines 270-284): entries whose mask
is exactly `GIT_STATUS_IGNORED`; same unchecked dereference. -/
def pass4_go : List StatusEntry → Bool → String → Except Unit (Bool × String)
  | [], header, out => Except.ok (header, out)
  | s :: rest, header, out =>
    if s.status = Status.ignoredOnly then
      match s.index_to_workdir with
      | none => Except.error ()
      | some d =>
        let hdr := if header then "" else pass4_header
        pass4_go rest true (out ++ hdr ++ "#\t" ++ fmt_cstr d.old_file.path ++ "\n")
    else
      pass4_go rest header out

def no_changes_trailer : String :=
  "no changes added to commit (use \"git add\" and/or \"git commit -a\")\n"

/-- The whole `print_long` renderer: the four passes in order, the
inter-pass "#\n" separators, and the trailer printed when nothing was
staged but the worktree changed (status.c lines 286-287). -/
def print_long (entries : List StatusEntry) : Except Unit String :=
  match pass1_go entries false false "" with
  | Except.error e => Except.error e
  | Except.ok (h1, rm, out1) =>
    let out1 := out1 ++ (if h1 then "#\n" else "")
    let (h2, out2) := pass2_go rm entries false ""
    let out2 := out2 ++ (if h2 then "#\n" else "")
    match pass3_go entries false "" with
    | Except.error e => Except.error e
    | Except.ok (_, out3) =>
      match pass4_go entries false "" with
      | Except.error e => Except.error e
      | Except.ok (_, out4) =>
        Except.ok (out1 ++ out2 ++ out3 ++ out4 ++
          (if !h1 && h2 then no_changes_trailer else ""))

/-! ## Short/porcelain renderer (`print_short`, status.c lines 290-392) -/

/-- Index-side character selection of the main pass (status.c lines
307-316): five conditional overwrites of `istatus`, starting from a
space. -/
def short_istatus (st : Status) : Char :=
  let istatus := ' '
  let istatus := if st.index_new then 'A' else istatus
  let istatus := if st.index_modified then 'M' else istatus
  let istatus := if st.index_deleted then 'D' else istatus
  let istatus := if st.index_renamed then 'R' else istatus
  let istatus := if st.index_typechange then 'T' else istatus
  istatus

/-- The full X/Y character computation of the main pass (status.c
lines 304-335): the index chain, the `WT_NEW` interplay, the worktree
chain, and the `IGNORED` override of both characters. -/
def short_xy (st : Status) : Char × Char :=
  let istatus := short_istatus st
  let wstatus := ' '
  let (istatus, wstatus) :=
    if st.wt_new then
      ((if istatus = ' ' then '?' else istatus), '?')
    else (istatus, wstatus)
  let wstatus := if st.wt_modified then 'M' else wstatus
  let wstatus := if st.wt_deleted then 'D' else wstatus
  let wstatus := if st.wt_renamed then 'R' else wstatus
  let wstatus := if st.wt_typechange then 'T' else wstatus
  let (istatus, wstatus) := if st.ignored then ('!', '!') else (istatus, wstatus)
  (istatus, wstatus)

/-- The submodule lookup that `print_short` performs: the composition
of `git_submodule_lookup` and `git_submodule_status`, `none` when
either call fails (in which case the annotation is omitted). -/
def SubmoduleLookup : Type := Option String → Option SmStatus

/-- The submodule annotation string (status.c lines 340-359): only for
an `index_to_workdir` delta whose new file mode is a gitlink, and only
the first matching of the four inspected bits counts. -/
def short_extra (lookup_submodule : SubmoduleLookup) (s : StatusEntry) : String :=
  match s.index_to_workdir with
  | none => ""
  | some d =>
    if d.new_file.mode = GIT_FILEMODE_COMMIT then
      match lookup_submodule d.new_file.path with
      | none => ""
      | some sm =>
        if sm.wd_modified then " (new commits)"
        else if sm.wd_index_modified then " (modified content)"
        else if sm.wd_wd_modified then " (modified content)"
        else if sm.wd_untracked then " (untracked content)"
        else ""
    else ""

/-- The path selection of the main pass (status.c lines 361-371):
`a`/`b` from `head_to_index` when present, filled in from
`index_to_workdir.old_file.path` when still NULL, and `c` from
`index_to_workdir.new_file.path`. -/
def short_paths (s : StatusEntry) : Option String × Option String × Option String :=
  let a : Option String := none
  let b : Option String := none
  let c : Option String := none
  let (a, b) :=
    match s.head_to_index with
    | some d => (d.old_file.path, d.new_file.path)
    | none => (a, b)
  match s.index_to_workdir with
  | some d =>
    ((if a.isNone then d.old_file.path else a),
     (if b.isNone then d.old_file.path else b),
     d.new_file.path)
  | none => (a, b, c)

/-- The line that the main pass of `print_short` emits for one entry,
`none` when the entry is skipped (`GIT_STATUS_CURRENT`, or the `??`
pair that is re-emitted by the untracked pass).  The four printf
shapes are status.c lines 373-383. -/
def short_entry_line (lookup_submodule : SubmoduleLookup) (s : StatusEntry) :
    Option String :=
  if s.status = Status.current then none
  else
    let (istatus, wstatus) := short_xy s.status
    if istatus = '?' ∧ wstatus = '?' then none
    else
      let extra := short_extra lookup_submodule s
      let (a, b, c) := short_paths s
      some (
        if istatus = 'R' then
          if wstatus = 'R' then
            String.mk [istatus, wstatus, ' '] ++ fmt_cstr a ++ " " ++ fmt_cstr b ++
              " " ++ fmt_cstr c ++ extra ++ "\n"
          else
            String.mk [istatus, wstatus, ' '] ++ fmt_cstr a ++ " " ++ fmt_cstr b ++
              extra ++ "\n"
        else
          if wstatus = 'R' then
            String.mk [istatus, wstatus, ' '] ++ fmt_cstr a ++ " " ++ fmt_cstr c ++
              extra ++ "\n"
          else
            String.mk [istatus, wstatus, ' '] ++ fmt_cstr a ++ extra ++ "\n")

/-- The main pass of `print_short` (status.c lines 297-384): no state
is carried between iterations, so the output is the concatenation of
the per-entry lines. -/
def short_main_pass (lookup_submodule : SubmoduleLookup) :
    List StatusEntry → String
  | [] => ""
  | s :: rest =>
    (short_entry_line lookup_submodule s).getD "" ++
      short_main_pass lookup_submodule rest

/-- The untracked pass of `print_short` (status.c lines 386-391):
entries whose mask is exactly `GIT_STATUS_WT_NEW`, with an unchecked
dereference of `index_to_workdir`. -/
def short_untracked_go : List StatusEntry → Except Unit String
  | [] => Except.ok ""
  | s :: rest =>
    if s.status = Status.wtNewOnly then
      match s.index_to_workdir with
      | none => Except.error ()
      | some d =>
        match short_untracked_go rest with
        | Except.error e => Except.error e
        | Except.ok r => Except.ok ("?? " ++ fmt_cstr d.old_file.path ++ "\n" ++ r)
    else
      short_untracked_go rest

/-- The whole `print_short` renderer (also used for the porcelain
format, which is byte-identical in this example). -/
def print_short (lookup_submodule : SubmoduleLookup)
    (entries : List StatusEntry) : Except Unit String :=
  match short_untracked_go entries with
  | Except.error e => Except.error e
  | Except.ok u => Except.ok (short_main_pass lookup_submodule entries ++ u)

/-! ## Driver (`main`, status.c lines 61-114) -/

/-- The external libgit2 behavior that one run of the example
observes: whether `git_repository_open_ext` succeeds, whether the
repository is bare, the status list `git_status_list_new` produces
(`none` = failure), the `git_repository_head` outcome, and the
submodule lookup. -/
structure Env where
  open_ok : Bool
  is_bare : Bool
  status_list : Option (List StatusEntry)
  head : HeadResult
  lookup_submodule : SubmoduleLookup

/-- One run of `main` on `argv[1..]`: either the full stdout of a
successful run (exit code 0), or the fatal diagnostic of a run that
exits non-zero.  A NULL-delta dereference inside a renderer (undefined
behavior) is also mapped to the error side, since such a run does not
exit 0 either. -/
def main_run (env : Env) (args : List String) : Except String String :=
  match parse_opts args with
  | Except.error e => Except.error e
  | Except.ok o =>
    if env.open_ok = false then Except.error "Could not open repository"
    else if env.is_bare then Except.error "Cannot report status on bare repository"
    else
      match env.status_list with
      | none => Except.error "Could not get status"
      | some entries =>
        match (if o.showbranch then show_branch env.head o.format else Except.ok "") with
        | Except.error e => Except.error e
        | Except.ok branch_out =>
          match (if o.format = FORMAT_LONG then print_long entries
                 else print_short env.lookup_submodule entries) with
          | Except.error _ => Except.error "null delta dereference"
          | Except.ok body => Except.ok (branch_out ++ body)


/-! ## Supporting definitions for the verification -/

/-- Whether an `Except` result is on the success side (for `main_run`:
exit code 0; for `parse_opts`: no fatal CLI error; for a renderer: no
null-delta dereference). -/
def run_ok {ε α : Type} : Except ε α → Bool
  | Except.ok _ => true
  | Except.error _ => false

/-- A clean repository on branch `main`: empty status list, HEAD
resolves to `refs/heads/main`. -/
def cleanEnv : Env :=
  { open_ok := true
    is_bare := false
    status_list := some []
    head := HeadResult.ok "refs/heads/main"
    lookup_submodule := fun _ => none }

/-- Environment in which the status list is built successfully but
HEAD resolution fails with a fatal error. -/
def envHeadErr : Env :=
  { open_ok := true
    is_bare := false
    status_list := some []
    head := HeadResult.err
    lookup_submodule := fun _ => none }

/-- Environment in which the status list cannot be built. -/
def envNoList : Env :=
  { open_ok := true
    is_bare := false
    status_list := none
    head := HeadResult.ok "refs/heads/main"
    lookup_submodule := fun _ => none }

/-- A submodule lookup in which every lookup fails (no annotations). -/
def noSub : SubmoduleLookup := fun _ => none

/-- How many of the five index-side bits a mask sets. -/
def index_bit_count (st : Status) : Nat :=
  st.index_new.toNat + st.index_modified.toNat + st.index_deleted.toNat +
    st.index_renamed.toNat + st.index_typechange.toNat

/-- Modelled from the spec's words: the long glyph chosen by the
priority order Typechange > Renamed > Deleted > Modified > New. -/
def spec_priority_long_glyph (st : Status) : Option String :=
  if st.index_typechange then some "typechange:"
  else if st.index_renamed then some "renamed:  "
  else if st.index_deleted then some "deleted:  "
  else if st.index_modified then some "modified: "
  else if st.index_new then some "new file: "
  else none

/-- Modelled from the spec's words: the short X character chosen by
the priority order Typechange > Renamed > Deleted > Modified > New. -/
def spec_priority_short_char (st : Status) : Char :=
  if st.index_typechange then 'T'
  else if st.index_renamed then 'R'
  else if st.index_deleted then 'D'
  else if st.index_modified then 'M'
  else if st.index_new then 'A'
  else ' '

/-- The multi-bit mask `GIT_STATUS_INDEX_MODIFIED | GIT_STATUS_INDEX_RENAMED`. -/
def mrMask : Status :=
  { Status.current with index_modified := true, index_renamed := true }

/-- Whether a mask sets at least one of the five index-side bits. -/
def has_index_bit (st : Status) : Bool :=
  st.index_new || st.index_modified || st.index_deleted ||
    st.index_renamed || st.index_typechange

/-- Space-separated joining of the path fields of one short line. -/
def join_paths : List String → String
  | [] => ""
  | [p] => p
  | p :: rest => p ++ " " ++ join_paths rest

/-- The C test `a[0] != '-'`: the argument is appended to the
pathspec. -/
def is_pathspec_arg (a : String) : Bool :=
  !(first_char_is_dash a)

/-- An entry whose only change is a worktree deletion. -/
def wtDelEntry : StatusEntry :=
  { status := { Status.current with wt_deleted := true }
    head_to_index := none
    index_to_workdir := some ⟨⟨some "a.txt", 33188⟩, ⟨some "a.txt", 0⟩⟩ }

/-- An entry staged as a rename `a.txt -> b.txt` with no worktree
change. -/
def renameEntry : StatusEntry :=
  { status := { Status.current with index_renamed := true }
    head_to_index := some ⟨⟨some "a.txt", 33188⟩, ⟨some "b.txt", 33188⟩⟩
    index_to_workdir := none }

/-- An entry with the zero (`GIT_STATUS_CURRENT`) mask. -/
def currentEntry : StatusEntry :=
  { status := Status.current
    head_to_index := none
    index_to_workdir := none }

/-- An entry staged as a new file. -/
def stagedNewEntry : StatusEntry :=
  { status := { Status.current with index_new := true }
    head_to_index := some ⟨⟨some "a.txt", 33188⟩, ⟨some "a.txt", 33188⟩⟩
    index_to_workdir := none }

/-- An untracked entry (mask exactly `GIT_STATUS_WT_NEW`). -/
def untrackedEntry : StatusEntry :=
  { status := Status.wtNewOnly
    head_to_index := none
    index_to_workdir := some ⟨⟨some "u.txt", 0⟩, ⟨some "u.txt", 33188⟩⟩ }

/-- An entry whose mask is exactly `GIT_STATUS_CONFLICTED`. -/
def conflictedEntry : StatusEntry :=
  { status := Status.conflictedOnly
    head_to_index := some ⟨⟨some "c.txt", 33188⟩, ⟨some "c.txt", 33188⟩⟩
    index_to_workdir := none }

/-- The options record that parsing `["a", "-b", "c"]` produces. -/
def opts_abc : Opts :=
  { initial_opts with
    pathspec := ["a", "c"]
    format := FORMAT_LONG
    showbranch := true }

/-! ## Helper lemmas -/

theorem str_append_assoc (a b c : String) : a ++ b ++ c = a ++ (b ++ c) := by
  rcases a with ⟨la⟩
  rcases b with ⟨lb⟩
  rcases c with ⟨lc⟩
  show String.mk (la ++ lb ++ lc) = String.mk (la ++ (lb ++ lc))
  rw [List.append_assoc]

theorem str_append_empty (a : String) : a ++ "" = a := by
  rcases a with ⟨la⟩
  show String.mk (la ++ []) = String.mk la
  rw [List.append_nil]

theorem str_empty_append (a : String) : "" ++ a = a := by
  rcases a with ⟨la⟩
  rfl

theorem hasPrefixChars_append (p t : List Char) : hasPrefixChars p (p ++ t) = true := by
  induction p with
  | nil => simp [hasPrefixChars]
  | cons c cs ih => simp [hasPrefixChars, ih]

theorem hasPrefixChars_exists (p s : List Char) (h : hasPrefixChars p s = true) :
    ∃ t, s = p ++ t := by
  induction p generalizing s with
  | nil => exact ⟨s, rfl⟩
  | cons c cs ih =>
    cases s with
    | nil => simp [hasPrefixChars] at h
    | cons d ds =>
      rw [hasPrefixChars, Bool.and_eq_true] at h
      obtain ⟨t, ht⟩ := ih ds h.2
      refine ⟨t, ?_⟩
      rw [List.cons_append, ← ht, decide_eq_true_eq.mp h.1]

theorem exists_prefix_of_hasPrefixChars (p s : String)
    (h : hasPrefixChars p.data s.data = true) : ∃ t : String, s = p ++ t := by
  obtain ⟨t, ht⟩ := hasPrefixChars_exists p.data s.data h
  refine ⟨String.mk t, ?_⟩
  rcases p with ⟨pd⟩
  rcases s with ⟨sd⟩
  exact congrArg String.mk (by simpa using ht)

theorem head_short_name_strip (rest : String) :
    head_short_name ("refs/heads/" ++ rest) = rest := by
  unfold head_short_name
  rw [show ("refs/heads/" ++ rest).data = "refs/heads/".data ++ rest.data from
    String.data_append _ _]
  rw [hasPrefixChars_append, if_pos rfl]
  rw [show (11 : Nat) = ("refs/heads/".data).length from rfl]
  rw [List.drop_left]

theorem head_short_name_keep (name : String)
    (h : ¬ ∃ t : String, name = "refs/heads/" ++ t) :
    head_short_name name = name := by
  unfold head_short_name
  rw [if_neg]
  intro hpre
  exact h (exists_prefix_of_hasPrefixChars _ _ hpre)

/-! ## Claim C1: branch header under `status -s` -/

/-- C1 counterexample: on a clean repository on branch `main`,
`status -s` writes nothing at all — not `## main\n` — because `-s`
alone leaves `showbranch` unset and only the long format forces it. -/
theorem C1_counterexample :
    main_run cleanEnv ["-s"] = Except.ok "" ∧ ("" : String) ≠ "## main\n" :=
  ⟨rfl, by decide⟩

/-- C1 amended: for a clean repository whose HEAD is branch `main`,
`status -s` writes exactly the empty output; the header `## main\n` is
emitted (before the body) exactly when `-b`/`--branch` is also given,
since the parser sets showBranch only for `-b`/`--branch` or the long
format. -/
theorem C1_short_branch_header :
    main_run cleanEnv ["-s"] = Except.ok "" ∧
    main_run cleanEnv ["-s", "-b"] = Except.ok "## main\n" ∧
    main_run cleanEnv ["-b", "-s"] = Except.ok "## main\n" :=
  ⟨rfl, rfl, rfl⟩

/-! ## Claim C2: exit code vs status-list construction -/

/-- C2 counterexample: a run (default long format) in which
`git_status_list_new` succeeds and yet the process exits non-zero,
because `show_branch` then fails fatally; so "exit code 0 iff the
status list was built" fails in the build-succeeds-implies-exit-0
direction. -/
theorem C2_counterexample :
    envHeadErr.status_list.isSome = true ∧
    main_run envHeadErr [] = Except.error "failed to get current branch" :=
  ⟨rfl, rfl⟩

/-- C2 amended: the exit code is 0 only if the status list was
successfully built, and every run in which `git_status_list_new` fails
exits non-zero; the converse (a successful build forces exit 0) does
not hold, since a later fatal error (e.g. HEAD resolution) still makes
the run exit non-zero. -/
theorem C2_exit_code_vs_status_list (env : Env) (args : List String) :
    (run_ok (main_run env args) = true → env.status_list.isSome = true) ∧
    (env.status_list = none → run_ok (main_run env args) = false) := by
  constructor
  · intro h
    unfold main_run at h
    cases hp : parse_opts args with
    | error e => rw [hp] at h; exact absurd h (by simp [run_ok])
    | ok o =>
      rw [hp] at h
      dsimp only at h
      by_cases ho : env.open_ok = false
      · rw [if_pos ho] at h; exact absurd h (by simp [run_ok])
      · rw [if_neg ho] at h
        by_cases hb : env.is_bare
        · rw [if_pos hb] at h; exact absurd h (by simp [run_ok])
        · rw [if_neg hb] at h
          cases hs : env.status_list with
          | none => rw [hs] at h; exact absurd h (by simp [run_ok])
          | some entries => rfl
  · intro hnone
    unfold main_run
    cases hp : parse_opts args with
    | error e => rfl
    | ok o =>
      dsimp only
      by_cases ho : env.open_ok = false
      · rw [if_pos ho]; rfl
      · rw [if_neg ho]
        by_cases hb : env.is_bare
        · rw [if_pos hb]; rfl
        · rw [if_neg hb]; rw [hnone]; rfl

/-- C2 witness: the amended theorem applied at a concrete environment
whose status-list construction fails — the run exits non-zero. -/
theorem C2_exit_code_witness :
    run_ok (main_run envNoList []) = false :=
  (C2_exit_code_vs_status_list envNoList []).2 rfl

/-! ## Claim C3: index-side glyph priority -/

/-- C3: for every mask setting two or more index-side bits, the long
glyph and the short X character follow the priority order
Typechange > Renamed > Deleted > Modified > New (the later overwrites
of the source's fall-through chains win); when `IGNORED` is not also
set, the printed X of `print_short` is that same priority character
(the `WT_NEW` `?`-overwrite cannot fire since X is not a space). -/
theorem C3_index_priority (st : Status) (h : 2 ≤ index_bit_count st) :
    long_istatus st = spec_priority_long_glyph st ∧
    short_istatus st = spec_priority_short_char st ∧
    (st.ignored = false → (short_xy st).1 = spec_priority_short_char st) := by
  rcases st with ⟨iN, iM, iD, iR, iT, wN, wM, wD, wR, wT, ig, cf⟩
  revert h
  revert iN iM iD iR iT wN wM wD wR wT ig cf
  decide

/-- C3 witness: the multi-bit mask IndexModified | IndexRenamed
renders as `R` (short) and "renamed:  " (long), not as `M` /
"modified: ". -/
theorem C3_index_priority_witness :
    (2 ≤ index_bit_count mrMask) ∧
    (long_istatus mrMask = spec_priority_long_glyph mrMask ∧
     short_istatus mrMask = spec_priority_short_char mrMask ∧
     (mrMask.ignored = false → (short_xy mrMask).1 = spec_priority_short_char mrMask)) ∧
    long_istatus mrMask = some "renamed:  " ∧
    short_istatus mrMask = 'R' :=
  ⟨by decide, C3_index_priority mrMask (by decide), by decide, by decide⟩

/-! ## Claim C4: paths on a short-format line -/

/-- C4: every line of the short renderer's main pass is the XY pair, a
space, a space-separated list of paths, the submodule annotation, and
a newline; the list has three paths (a b c) when X and Y are both `R`,
two when exactly one is `R` (a b, resp. a c), and one (a) otherwise. -/
theorem C4_short_line_paths (ls : SubmoduleLookup) (s : StatusEntry) (line : String)
    (h : short_entry_line ls s = some line) :
    ∃ ps : List String,
      line = String.mk [(short_xy s.status).1, (short_xy s.status).2, ' '] ++
          join_paths ps ++ short_extra ls s ++ "\n" ∧
      ps.length = 1 + (if (short_xy s.status).1 = 'R' then 1 else 0) +
          (if (short_xy s.status).2 = 'R' then 1 else 0) ∧
      ((short_xy s.status).1 = 'R' ∧ (short_xy s.status).2 = 'R' →
        ps = [fmt_cstr (short_paths s).1, fmt_cstr (short_paths s).2.1,
              fmt_cstr (short_paths s).2.2]) ∧
      ((short_xy s.status).1 = 'R' ∧ (short_xy s.status).2 ≠ 'R' →
        ps = [fmt_cstr (short_paths s).1, fmt_cstr (short_paths s).2.1]) ∧
      ((short_xy s.status).1 ≠ 'R' ∧ (short_xy s.status).2 = 'R' →
        ps = [fmt_cstr (short_paths s).1, fmt_cstr (short_paths s).2.2]) ∧
      ((short_xy s.status).1 ≠ 'R' ∧ (short_xy s.status).2 ≠ 'R' →
        ps = [fmt_cstr (short_paths s).1]) := by
  unfold short_entry_line at h
  by_cases hcur : s.status = Status.current
  · rw [if_pos hcur] at h; exact absurd h (by simp)
  · rw [if_neg hcur] at h
    rcases hxy : short_xy s.status with ⟨X, Y⟩
    rw [hxy] at h
    dsimp only at h
    by_cases hq : X = '?' ∧ Y = '?'
    · rw [if_pos hq] at h; exact absurd h (by simp)
    · rw [if_neg hq] at h
      rcases hpaths : short_paths s with ⟨A, B, C⟩
      rw [hpaths] at h
      dsimp only at h
      have hline := (Option.some.inj h).symm
      dsimp only
      by_cases hX : X = 'R' <;> by_cases hY : Y = 'R'
      · rw [if_pos hX, if_pos hY] at hline
        refine ⟨[fmt_cstr A, fmt_cstr B, fmt_cstr C], ?_, by simp [hX, hY], ?_, ?_, ?_, ?_⟩
        · rw [hline]; simp only [join_paths, str_append_assoc]
        · intro; rfl
        · rintro ⟨-, hc⟩; exact absurd hY hc
        · rintro ⟨hc, -⟩; exact absurd hX hc
        · rintro ⟨hc, -⟩; exact absurd hX hc
      · rw [if_pos hX, if_neg hY] at hline
        refine ⟨[fmt_cstr A, fmt_cstr B], ?_, by simp [hX, hY], ?_, ?_, ?_, ?_⟩
        · rw [hline]; simp only [join_paths, str_append_assoc]
        · rintro ⟨-, hc⟩; exact absurd hc hY
        · intro; rfl
        · rintro ⟨hc, -⟩; exact absurd hX hc
        · rintro ⟨hc, -⟩; exact absurd hX hc
      · rw [if_neg hX, if_pos hY] at hline
        refine ⟨[fmt_cstr A, fmt_cstr C], ?_, by simp [hX, hY], ?_, ?_, ?_, ?_⟩
        · rw [hline]; simp only [join_paths, str_append_assoc]
        · rintro ⟨hc, -⟩; exact absurd hc hX
        · rintro ⟨hc, -⟩; exact absurd hc hX
        · intro; rfl
        · rintro ⟨-, hc⟩; exact absurd hY hc
      · rw [if_neg hX, if_neg hY] at hline
        refine ⟨[fmt_cstr A], ?_, by simp [hX, hY], ?_, ?_, ?_, ?_⟩
        · rw [hline]; simp only [join_paths, str_append_assoc]
        · rintro ⟨hc, -⟩; exact absurd hc hX
        · rintro ⟨hc, -⟩; exact absurd hc hX
        · rintro ⟨-, hc⟩; exact absurd hc hY
        · intro; rfl

/-- C4 witness: the index-renamed entry `a.txt -> b.txt` (X=R, Y
space) carries exactly the two paths a and b on its short line. -/
theorem C4_short_line_paths_witness :
    short_entry_line noSub renameEntry = some "R  a.txt b.txt\n" ∧
    "R  a.txt b.txt\n" =
      String.mk [(short_xy renameEntry.status).1, (short_xy renameEntry.status).2, ' '] ++
        join_paths [fmt_cstr (short_paths renameEntry).1,
          fmt_cstr (short_paths renameEntry).2.1] ++
        short_extra noSub renameEntry ++ "\n" := by
  obtain ⟨ps, hline, hlen, hrr, hrn, hnr, hnn⟩ :=
    C4_short_line_paths noSub renameEntry "R  a.txt b.txt\n" rfl
  refine ⟨rfl, ?_⟩
  have hps : ps = [fmt_cstr (short_paths renameEntry).1,
      fmt_cstr (short_paths renameEntry).2.1] :=
    hrn ⟨by decide, by decide⟩
  rw [← hps]
  exact hline

/-! ## Claim C5: the "git add[/rm]" header line -/

/-- Pass 1 computes `rm_in_workdir` as: some entry of the list has the
`WT_DELETED` bit (an entry with that bit is never skipped by the
`GIT_STATUS_CURRENT` test, since its mask is nonzero). -/
theorem pass1_go_rm (l : List StatusEntry) :
    ∀ header rm out h' r' o',
      pass1_go l header rm out = Except.ok (h', r', o') →
      r' = (rm || l.any (fun s => s.status.wt_deleted)) := by
  induction l with
  | nil =>
    intro header rm out h' r' o' h
    cases h
    simp
  | cons s rest ih =>
    intro header rm out h' r' o' h
    simp only [pass1_go] at h
    by_cases hcur : s.status = Status.current
    · rw [if_pos hcur] at h
      have hr := ih _ _ _ _ _ _ h
      have hwd : s.status.wt_deleted = false := by rw [hcur]; rfl
      simp [List.any_cons, hwd, hr]
    · rw [if_neg hcur] at h
      try dsimp only at h
      cases hist : long_istatus s.status with
      | none =>
        rw [hist] at h
        try dsimp only at h
        have hr := ih _ _ _ _ _ _ h
        simp [List.any_cons, hr, Bool.or_assoc]
      | some ist =>
        rw [hist] at h
        try dsimp only at h
        cases hhti : s.head_to_index with
        | none => rw [hhti] at h; exact absurd h (by simp)
        | some d =>
          rw [hhti] at h
          try dsimp only at h
          have hr := ih _ _ _ _ _ _ h
          simp [List.any_cons, hr, Bool.or_assoc]

/-- C5 counterexample: the second header line of pass 2 is not the
claimed string (which has a stray `)` after `<file>..."`); a concrete
run shows the actual line. -/
theorem C5_counterexample :
    pass2_header_line2 true ≠
      "#   (use \"git add/rm <file>...\") to update what will be committed)" ∧
    pass2_header_line2 true ≠
      "#   (use \"git add/rm <file>...\") to update what will be committed)\n" ∧
    print_long [wtDelEntry] = Except.ok
      ("# Changes not staged for commit:\n" ++
       "#   (use \"git add/rm <file>...\" to update what will be committed)\n" ++
       "#   (use \"git checkout -- <file>...\" to discard changes in working directory)\n" ++
       "#\n" ++
       "#\tdeleted:    a.txt\n" ++
       "#\n" ++
       "no changes added to commit (use \"git add\" and/or \"git commit -a\")\n") :=
  ⟨by decide, by decide, rfl⟩

/-- C5 amended: the second header line of "Changes not staged for
commit" is exactly `#   (use "git add/rm <file>..." to update what
will be committed)\n` when some entry examined in pass 1 had the
`WT_DELETED` bit (rmInWorkdir), and exactly `#   (use "git add
<file>..." to update what will be committed)\n` otherwise. -/
theorem C5_rm_header (entries : List StatusEntry) (h1 rm : Bool) (out1 : String)
    (hp : pass1_go entries false false "" = Except.ok (h1, rm, out1)) :
    rm = entries.any (fun s => s.status.wt_deleted) ∧
    pass2_header_line2 rm =
      (if rm then "#   (use \"git add/rm <file>...\" to update what will be committed)\n"
       else "#   (use \"git add <file>...\" to update what will be committed)\n") := by
  constructor
  · have hr := pass1_go_rm entries false false "" h1 rm out1 hp
    rw [Bool.false_or] at hr
    exact hr
  · cases rm <;> rfl

/-- C5 witness: the amended theorem applied at a one-entry list whose
entry is deleted in the worktree. -/
theorem C5_rm_header_witness :
    (true : Bool) = [wtDelEntry].any (fun s => s.status.wt_deleted) ∧
    pass2_header_line2 true =
      (if true then "#   (use \"git add/rm <file>...\" to update what will be committed)\n"
       else "#   (use \"git add <file>...\" to update what will be committed)\n") :=
  C5_rm_header [wtDelEntry] false true "" rfl

/-! ## Claim C6: `GIT_STATUS_CURRENT` entries are invisible -/

/-- Inserting an entry that pass 1 skips (no index glyph) and that
does not set `rm_in_workdir` leaves pass 1 unchanged. -/
theorem pass1_go_skip (e : StatusEntry) (h1 : long_istatus e.status = none)
    (h2 : e.status.wt_deleted = false) (l1 l2 : List StatusEntry) :
    ∀ header rm out,
      pass1_go (l1 ++ e :: l2) header rm out = pass1_go (l1 ++ l2) header rm out := by
  induction l1 with
  | nil =>
    intro header rm out
    simp only [List.nil_append]
    by_cases hcur : e.status = Status.current
    · simp only [pass1_go, if_pos hcur]
    · simp only [pass1_go, if_neg hcur, h1, h2, Bool.or_false]
  | cons s l1 ih =>
    intro header rm out
    simp only [List.cons_append, pass1_go]
    by_cases hcur : s.status = Status.current
    · simp only [if_pos hcur]
      exact ih header rm out
    · simp only [if_neg hcur]
      cases hist : long_istatus s.status with
      | none =>
        try dsimp only
        exact ih _ _ _
      | some ist =>
        try dsimp only
        cases hhti : s.head_to_index with
        | none => rfl
        | some d =>
          try dsimp only
          exact ih _ _ _

/-- Inserting an entry that pass 2 skips leaves pass 2 unchanged. -/
theorem pass2_go_skip (e : StatusEntry)
    (he : e.status = Status.current ∨ e.index_to_workdir = none ∨
      long_wstatus e.status = none) (l1 l2 : List StatusEntry) :
    ∀ rm header out,
      pass2_go rm (l1 ++ e :: l2) header out = pass2_go rm (l1 ++ l2) header out := by
  induction l1 with
  | nil =>
    intro rm header out
    simp only [List.nil_append]
    by_cases hc : e.status = Status.current ∨ e.index_to_workdir = none
    · simp only [pass2_go, if_pos hc]
    · have hw : long_wstatus e.status = none := by
        rcases he with h | h | h
        · exact absurd (Or.inl h) hc
        · exact absurd (Or.inr h) hc
        · exact h
      simp only [pass2_go, if_neg hc, hw]
  | cons s l1 ih =>
    intro rm header out
    simp only [List.cons_append, pass2_go]
    by_cases hc : s.status = Status.current ∨ s.index_to_workdir = none
    · simp only [if_pos hc]
      exact ih _ _ _
    · simp only [if_neg hc]
      cases hwst : long_wstatus s.status with
      | none =>
        try dsimp only
        exact ih _ _ _
      | some wst =>
        try dsimp only
        cases hitw : s.index_to_workdir with
        | none =>
          try dsimp only
          exact ih _ _ _
        | some d =>
          try dsimp only
          exact ih _ _ _

/-- Inserting an entry whose mask is not exactly `WT_NEW` leaves
pass 3 unchanged. -/
theorem pass3_go_skip (e : StatusEntry) (he : e.status ≠ Status.wtNewOnly)
    (l1 l2 : List StatusEntry) :
    ∀ header out, pass3_go (l1 ++ e :: l2) header out = pass3_go (l1 ++ l2) header out := by
  induction l1 with
  | nil =>
    intro header out
    simp only [List.nil_append, pass3_go, if_neg he]
  | cons s l1 ih =>
    intro header out
    simp only [List.cons_append, pass3_go]
    by_cases hs : s.status = Status.wtNewOnly
    · simp only [if_pos hs]
      cases hitw : s.index_to_workdir with
      | none => rfl
      | some d =>
        try dsimp only
        exact ih _ _
    · simp only [if_neg hs]
      exact ih _ _

/-- Inserting an entry whose mask is not exactly `IGNORED` leaves
pass 4 unchanged. -/
theorem pass4_go_skip (e : StatusEntry) (he : e.status ≠ Status.ignoredOnly)
    (l1 l2 : List StatusEntry) :
    ∀ header out, pass4_go (l1 ++ e :: l2) header out = pass4_go (l1 ++ l2) header out := by
  induction l1 with
  | nil =>
    intro header out
    simp only [List.nil_append, pass4_go, if_neg he]
  | cons s l1 ih =>
    intro header out
    simp only [List.cons_append, pass4_go]
    by_cases hs : s.status = Status.ignoredOnly
    · simp only [if_pos hs]
      cases hitw : s.index_to_workdir with
      | none => rfl
      | some d =>
        try dsimp only
        exact ih _ _
    · simp only [if_neg hs]
      exact ih _ _

/-- Inserting an entry whose mask is not exactly `WT_NEW` leaves the
untracked pass of `print_short` unchanged. -/
theorem short_untracked_go_skip (e : StatusEntry) (he : e.status ≠ Status.wtNewOnly)
    (l1 l2 : List StatusEntry) :
    short_untracked_go (l1 ++ e :: l2) = short_untracked_go (l1 ++ l2) := by
  induction l1 with
  | nil =>
    simp only [List.nil_append, short_untracked_go, if_neg he]
  | cons s l1 ih =>
    simp only [List.cons_append, short_untracked_go]
    by_cases hs : s.status = Status.wtNewOnly
    · simp only [if_pos hs]
      cases hitw : s.index_to_workdir with
      | none => rfl
      | some d =>
        try dsimp only
        rw [show short_untracked_go (l1.append (e :: l2)) =
          short_untracked_go (l1.append l2) from ih]
    · simp only [if_neg hs]
      exact ih

/-- Inserting an entry for which the main pass emits no line leaves
the main pass of `print_short` unchanged. -/
theorem short_main_pass_skip (ls : SubmoduleLookup) (e : StatusEntry)
    (he : short_entry_line ls e = none) (l1 l2 : List StatusEntry) :
    short_main_pass ls (l1 ++ e :: l2) = short_main_pass ls (l1 ++ l2) := by
  induction l1 with
  | nil =>
    simp only [List.nil_append, short_main_pass, he, Option.getD_none]
    exact str_empty_append _
  | cons s l1 ih =>
    simp only [List.cons_append, short_main_pass]
    exact congrArg (fun x => (short_entry_line ls s).getD "" ++ x) ih

/-- Inserting an entry that every pass of `print_long` skips leaves
the whole long rendering unchanged. -/
theorem print_long_skip (e : StatusEntry) (h1 : long_istatus e.status = none)
    (h2 : e.status.wt_deleted = false)
    (hp2 : e.status = Status.current ∨ e.index_to_workdir = none ∨
      long_wstatus e.status = none)
    (hwn : e.status ≠ Status.wtNewOnly) (hig : e.status ≠ Status.ignoredOnly)
    (l1 l2 : List StatusEntry) :
    print_long (l1 ++ e :: l2) = print_long (l1 ++ l2) := by
  unfold print_long
  simp only [pass1_go_skip e h1 h2 l1 l2, pass2_go_skip e hp2 l1 l2,
    pass3_go_skip e hwn l1 l2, pass4_go_skip e hig l1 l2]

/-- Inserting an entry that the main pass skips, and whose mask is not
exactly `WT_NEW`, leaves the whole short rendering unchanged. -/
theorem print_short_skip (ls : SubmoduleLookup) (e : StatusEntry)
    (hline : short_entry_line ls e = none) (hwn : e.status ≠ Status.wtNewOnly)
    (l1 l2 : List StatusEntry) :
    print_short ls (l1 ++ e :: l2) = print_short ls (l1 ++ l2) := by
  unfold print_short
  rw [short_untracked_go_skip e hwn l1 l2, short_main_pass_skip ls e hline l1 l2]

/-- C6: an entry whose mask is `GIT_STATUS_CURRENT` produces no output
and changes no header, flag or trailer, in long, short and porcelain
format alike: deleting it from any position leaves both renderings
unchanged. -/
theorem C6_current_invisible (ls : SubmoduleLookup) (e : StatusEntry)
    (he : e.status = Status.current) (l1 l2 : List StatusEntry) :
    print_long (l1 ++ e :: l2) = print_long (l1 ++ l2) ∧
    print_short ls (l1 ++ e :: l2) = print_short ls (l1 ++ l2) := by
  constructor
  · exact print_long_skip e (by rw [he]; rfl) (by rw [he]; rfl) (Or.inl he)
      (by rw [he]; decide) (by rw [he]; decide) l1 l2
  · refine print_short_skip ls e ?_ (by rw [he]; decide) l1 l2
    unfold short_entry_line
    rw [if_pos he]

/-- C6 witness: a `Current` entry inserted in front of an untracked
entry changes neither rendering. -/
theorem C6_current_invisible_witness :
    print_long ([] ++ currentEntry :: [untrackedEntry]) =
      print_long ([] ++ [untrackedEntry]) ∧
    print_short noSub ([] ++ currentEntry :: [untrackedEntry]) =
      print_short noSub ([] ++ [untrackedEntry]) :=
  C6_current_invisible noSub currentEntry rfl [] [untrackedEntry]

/-! ## Claim C7: branch header resolution outcomes -/

/-- C7: HEAD resolution has three outcomes: unborn/not-found give the
no-branch banner for the respective format; success emits the full
reference name with a leading "refs/heads/" stripped when present and
verbatim otherwise; any other failure is fatal. -/
theorem C7_branch_header (format : Nat) (name rest : String) :
    (show_branch HeadResult.unborn format =
      Except.ok (if format = FORMAT_LONG then "# On branch Not currently on any branch.\n"
                 else "## HEAD (no branch)\n")) ∧
    (show_branch HeadResult.notFound format =
      Except.ok (if format = FORMAT_LONG then "# On branch Not currently on any branch.\n"
                 else "## HEAD (no branch)\n")) ∧
    (show_branch (HeadResult.ok ("refs/heads/" ++ rest)) format =
      Except.ok (if format = FORMAT_LONG then "# On branch " ++ rest ++ "\n"
                 else "## " ++ rest ++ "\n")) ∧
    ((¬ ∃ t : String, name = "refs/heads/" ++ t) →
      show_branch (HeadResult.ok name) format =
        Except.ok (if format = FORMAT_LONG then "# On branch " ++ name ++ "\n"
                   else "## " ++ name ++ "\n")) ∧
    show_branch HeadResult.err format = Except.error "failed to get current branch" := by
  refine ⟨?_, ?_, ?_, ?_, rfl⟩
  · by_cases hf : format = FORMAT_LONG
    · simp only [show_branch, if_pos hf]; rfl
    · simp only [show_branch, if_neg hf]; rfl
  · by_cases hf : format = FORMAT_LONG
    · simp only [show_branch, if_pos hf]; rfl
    · simp only [show_branch, if_neg hf]; rfl
  · by_cases hf : format = FORMAT_LONG
    · simp only [show_branch, if_pos hf, head_short_name_strip]
    · simp only [show_branch, if_neg hf, head_short_name_strip]
  · intro hno
    have hk := head_short_name_keep name hno
    by_cases hf : format = FORMAT_LONG
    · simp only [show_branch, if_pos hf, hk]
    · simp only [show_branch, if_neg hf, hk]

/-- C7 witness: a symbolic reference outside refs/heads/ is emitted
verbatim, and refs/heads/main is emitted as main, in short format. -/
theorem C7_branch_header_witness :
    show_branch (HeadResult.ok "refs/remotes/origin/x") FORMAT_SHORT =
      Except.ok (if FORMAT_SHORT = FORMAT_LONG
                 then "# On branch " ++ "refs/remotes/origin/x" ++ "\n"
                 else "## " ++ "refs/remotes/origin/x" ++ "\n") ∧
    show_branch (HeadResult.ok ("refs/heads/" ++ "main")) FORMAT_SHORT =
      Except.ok (if FORMAT_SHORT = FORMAT_LONG then "# On branch " ++ "main" ++ "\n"
                 else "## " ++ "main" ++ "\n") :=
  ⟨(C7_branch_header FORMAT_SHORT "refs/remotes/origin/x" "main").2.2.2.1
      (by
        rintro ⟨t, ht⟩
        have hd := congrArg String.data ht
        rw [String.data_append] at hd
        have h2 := congrArg (fun l => l.take 11) hd
        simp at h2),
    (C7_branch_header FORMAT_SHORT "refs/remotes/origin/x" "main").2.2.1⟩

/-! ## Claim C8: pathspec capacity -/

/-- Processing an option token (leading dash) never changes the
pathspec. -/
theorem parse_one_opt_pathspec (a : String) (o o' : Opts)
    (hd : first_char_is_dash a = true)
    (h : parse_one o a = Except.ok o') : o'.pathspec = o.pathspec := by
  unfold parse_one at h
  rw [if_neg (by simp [hd])] at h
  by_cases h1 : a = "-s" ∨ a = "--short"
  · rw [if_pos h1] at h; cases h; rfl
  rw [if_neg h1] at h
  by_cases h2 : a = "--long"
  · rw [if_pos h2] at h; cases h; rfl
  rw [if_neg h2] at h
  by_cases h3 : a = "--porcelain"
  · rw [if_pos h3] at h; cases h; rfl
  rw [if_neg h3] at h
  by_cases h4 : a = "-b" ∨ a = "--branch"
  · rw [if_pos h4] at h; cases h; rfl
  rw [if_neg h4] at h
  by_cases h5 : a = "-z"
  · rw [if_pos h5] at h; cases h; rfl
  rw [if_neg h5] at h
  by_cases h6 : a = "--ignored"
  · rw [if_pos h6] at h; cases h; rfl
  rw [if_neg h6] at h
  by_cases h7 : a = "-uno" ∨ a = "--untracked-files=no"
  · rw [if_pos h7] at h; cases h; rfl
  rw [if_neg h7] at h
  by_cases h8 : a = "-unormal" ∨ a = "--untracked-files=normal"
  · rw [if_pos h8] at h; cases h; rfl
  rw [if_neg h8] at h
  by_cases h9 : a = "-uall" ∨ a = "--untracked-files=all"
  · rw [if_pos h9] at h; cases h; rfl
  rw [if_neg h9] at h
  by_cases h10 : a = "--ignore-submodules=all"
  · rw [if_pos h10] at h; cases h; rfl
  rw [if_neg h10] at h
  by_cases h11 : hasPrefixChars "--git-dir=".data a.data = true
  · rw [if_pos h11] at h; cases h; rfl
  rw [if_neg h11] at h
  exact absurd h (by simp)

/-- If more pathspec arguments remain than fit in the unused capacity,
the argument loop exits fatally (either at the pathspec overflow or at
an earlier unsupported option). -/
theorem parse_go_fail (l : List String) : ∀ o : Opts, o.pathspec.length ≤ 8 →
    8 < o.pathspec.length + (l.filter is_pathspec_arg).length →
    run_ok (parse_opts_go o l) = false := by
  induction l with
  | nil =>
    intro o hle hgt
    simp only [List.filter_nil, List.length_nil, Nat.add_zero] at hgt
    exact absurd hgt (Nat.not_lt.mpr hle)
  | cons a rest ih =>
    intro o hle hgt
    simp only [parse_opts_go]
    by_cases hd : first_char_is_dash a = false
    · have hpa : is_pathspec_arg a = true := by simp [is_pathspec_arg, hd]
      unfold parse_one
      rw [if_pos hd]
      by_cases hlen : o.pathspec.length < MAX_PATHSPEC
      · rw [if_pos hlen]
        try dsimp only
        apply ih
        · simp only [List.length_append, List.length_cons, List.length_nil]
          unfold MAX_PATHSPEC at hlen
          omega
        · simp [List.filter_cons, hpa] at hgt
          simp [List.length_append]
          omega
      · rw [if_neg hlen]
        rfl
    · have hdt : first_char_is_dash a = true := by
        cases hfc : first_char_is_dash a
        · exact absurd hfc hd
        · rfl
      cases hpo : parse_one o a with
      | error e => rfl
      | ok o₁ =>
        try dsimp only
        have hkeep := parse_one_opt_pathspec a o o₁ hdt hpo
        have hpa : is_pathspec_arg a = false := by
          simp [is_pathspec_arg, hdt]
        apply ih
        · rw [hkeep]; exact hle
        · rw [hkeep]
          simp only [List.filter_cons, hpa] at hgt
          simpa using hgt

/-- A successful run of the argument loop appends exactly the
non-option arguments, in command-line order. -/
theorem parse_go_ok (l : List String) : ∀ o o' : Opts,
    parse_opts_go o l = Except.ok o' →
    o'.pathspec = o.pathspec ++ (l.filter is_pathspec_arg) := by
  induction l with
  | nil =>
    intro o o' h
    cases h
    simp
  | cons a rest ih =>
    intro o o' h
    simp only [parse_opts_go] at h
    by_cases hd : first_char_is_dash a = false
    · have hpa : is_pathspec_arg a = true := by simp [is_pathspec_arg, hd]
      unfold parse_one at h
      rw [if_pos hd] at h
      by_cases hlen : o.pathspec.length < MAX_PATHSPEC
      · rw [if_pos hlen] at h
        try dsimp only at h
        have hr := ih _ _ h
        rw [hr]
        simp [List.filter_cons, hpa]
      · rw [if_neg hlen] at h
        exact absurd h (by simp)
    · have hdt : first_char_is_dash a = true := by
        cases hfc : first_char_is_dash a
        · exact absurd hfc hd
        · rfl
      cases hpo : parse_one o a with
      | error e =>
        rw [hpo] at h
        exact absurd h (by simp)
      | ok o₁ =>
        rw [hpo] at h
        try dsimp only at h
        have hkeep := parse_one_opt_pathspec a o o₁ hdt hpo
        have hr := ih _ _ h
        rw [hr, hkeep]
        have hpa : is_pathspec_arg a = false := by
          simp [is_pathspec_arg, hdt]
        simp [List.filter_cons, hpa]

/-- C8: the parser accepts at most 8 non-option (pathspec) arguments,
appending them in command-line order; every argv with more than 8 such
arguments exits fatally with a CLI-misuse diagnostic. -/
theorem C8_pathspec_bound (args : List String) :
    (8 < (args.filter is_pathspec_arg).length →
      run_ok (parse_opts args) = false) ∧
    (∀ o, parse_opts args = Except.ok o →
      o.pathspec = args.filter is_pathspec_arg ∧ o.pathspec.length ≤ 8) := by
  constructor
  · intro hgt
    unfold parse_opts
    have hfail := parse_go_fail args initial_opts (by simp [initial_opts])
      (by simpa [initial_opts] using hgt)
    cases hq : parse_opts_go initial_opts args with
    | error e => rfl
    | ok o => rw [hq] at hfail; exact absurd hfail (by simp [run_ok])
  · intro o h
    unfold parse_opts at h
    cases hq : parse_opts_go initial_opts args with
    | error e => rw [hq] at h; exact absurd h (by simp)
    | ok o₁ =>
      rw [hq] at h
      dsimp only at h
      have hps := parse_go_ok args initial_opts o₁ hq
      have hsame : o.pathspec = o₁.pathspec := by
        cases h
        split <;> split <;> rfl
      have hbound : (args.filter is_pathspec_arg).length ≤ 8 := by
        by_contra hc
        push_neg at hc
        have hfail := parse_go_fail args initial_opts (by simp [initial_opts])
          (by simpa [initial_opts] using hc)
        rw [hq] at hfail
        simp [run_ok] at hfail
      constructor
      · rw [hsame, hps]
        simp [initial_opts]
      · rw [hsame, hps]
        simpa [initial_opts] using hbound

/-- C8 witness: a ninth pathspec argument is fatal; three arguments of
which one is an option leave the two paths, in order. -/
theorem C8_pathspec_bound_witness :
    run_ok (parse_opts ["p1", "p2", "p3", "p4", "p5", "p6", "p7", "p8", "p9"]) = false ∧
    (opts_abc.pathspec = ["a", "-b", "c"].filter is_pathspec_arg ∧
     opts_abc.pathspec.length ≤ 8) :=
  ⟨(C8_pathspec_bound _).1 (by decide),
   (C8_pathspec_bound ["a", "-b", "c"]).2 opts_abc rfl⟩

/-! ## Claim C9: renderers never dereference an absent delta -/

/-- The index glyph is chosen exactly when some index-side bit is set. -/
theorem long_istatus_isSome (st : Status) :
    (long_istatus st).isSome = has_index_bit st := by
  rcases st with ⟨iN, iM, iD, iR, iT, wN, wM, wD, wR, wT, ig, cf⟩
  revert iN iM iD iR iT wN wM wD wR wT ig cf
  decide

/-- Pass 1 succeeds when every entry with an index-side bit carries a
`head_to_index` delta. -/
theorem pass1_go_total (l : List StatusEntry) : ∀ header rm out,
    (∀ s ∈ l, has_index_bit s.status = true → s.head_to_index ≠ none) →
    ∃ v, pass1_go l header rm out = Except.ok v := by
  induction l with
  | nil => exact fun header rm out _ => ⟨_, rfl⟩
  | cons s rest ih =>
    intro header rm out hl
    have hs := hl s (List.mem_cons_self s rest)
    have hrest := fun x hx => hl x (List.mem_cons_of_mem s hx)
    simp only [pass1_go]
    by_cases hcur : s.status = Status.current
    · rw [if_pos hcur]
      exact ih _ _ _ hrest
    · rw [if_neg hcur]
      try dsimp only
      cases hist : long_istatus s.status with
      | none => exact ih _ _ _ hrest
      | some ist =>
        try dsimp only
        cases hhti : s.head_to_index with
        | none =>
          exfalso
          refine hs ?_ hhti
          have hsome : (long_istatus s.status).isSome = true := by rw [hist]; rfl
          rw [long_istatus_isSome] at hsome
          exact hsome
        | some d => exact ih _ _ _ hrest

/-- Pass 3 succeeds when every exactly-`WT_NEW` entry carries an
`index_to_workdir` delta. -/
theorem pass3_go_total (l : List StatusEntry) : ∀ header out,
    (∀ s ∈ l, s.status = Status.wtNewOnly → s.index_to_workdir ≠ none) →
    ∃ v, pass3_go l header out = Except.ok v := by
  induction l with
  | nil => exact fun header out _ => ⟨_, rfl⟩
  | cons s rest ih =>
    intro header out hl
    have hs := hl s (List.mem_cons_self s rest)
    have hrest := fun x hx => hl x (List.mem_cons_of_mem s hx)
    simp only [pass3_go]
    by_cases hw : s.status = Status.wtNewOnly
    · rw [if_pos hw]
      cases hitw : s.index_to_workdir with
      | none => exact absurd hitw (hs hw)
      | some d =>
        try dsimp only
        exact ih _ _ hrest
    · rw [if_neg hw]
      exact ih _ _ hrest

/-- Pass 4 succeeds when every exactly-`IGNORED` entry carries an
`index_to_workdir` delta. -/
theorem pass4_go_total (l : List StatusEntry) : ∀ header out,
    (∀ s ∈ l, s.status = Status.ignoredOnly → s.index_to_workdir ≠ none) →
    ∃ v, pass4_go l header out = Except.ok v := by
  induction l with
  | nil => exact fun header out _ => ⟨_, rfl⟩
  | cons s rest ih =>
    intro header out hl
    have hs := hl s (List.mem_cons_self s rest)
    have hrest := fun x hx => hl x (List.mem_cons_of_mem s hx)
    simp only [pass4_go]
    by_cases hw : s.status = Status.ignoredOnly
    · rw [if_pos hw]
      cases hitw : s.index_to_workdir with
      | none => exact absurd hitw (hs hw)
      | some d =>
        try dsimp only
        exact ih _ _ hrest
    · rw [if_neg hw]
      exact ih _ _ hrest

/-- The untracked pass of `print_short` succeeds when every
exactly-`WT_NEW` entry carries an `index_to_workdir` delta. -/
theorem short_untracked_go_total (l : List StatusEntry) :
    (∀ s ∈ l, s.status = Status.wtNewOnly → s.index_to_workdir ≠ none) →
    ∃ v, short_untracked_go l = Except.ok v := by
  induction l with
  | nil => exact fun _ => ⟨_, rfl⟩
  | cons s rest ih =>
    intro hl
    have hs := hl s (List.mem_cons_self s rest)
    have hrest := fun x hx => hl x (List.mem_cons_of_mem s hx)
    simp only [short_untracked_go]
    by_cases hw : s.status = Status.wtNewOnly
    · rw [if_pos hw]
      cases hitw : s.index_to_workdir with
      | none => exact absurd hitw (hs hw)
      | some d =>
        try dsimp only
        obtain ⟨v, hv⟩ := ih hrest
        rw [hv]
        exact ⟨_, rfl⟩
    · rw [if_neg hw]
      exact ih hrest

/-- C9: under the two presence preconditions — entries with an
index-side bit carry `head_to_index`, and entries whose mask is
exactly `WT_NEW` or exactly `IGNORED` carry `index_to_workdir` — both
renderers complete without ever dereferencing an absent delta. -/
theorem C9_no_null_deref (ls : SubmoduleLookup) (entries : List StatusEntry)
    (hidx : ∀ s ∈ entries, has_index_bit s.status = true → s.head_to_index ≠ none)
    (hwt : ∀ s ∈ entries,
      (s.status = Status.wtNewOnly ∨ s.status = Status.ignoredOnly) →
      s.index_to_workdir ≠ none) :
    (∃ out, print_long entries = Except.ok out) ∧
    (∃ out, print_short ls entries = Except.ok out) := by
  obtain ⟨v1, h1⟩ := pass1_go_total entries false false "" hidx
  obtain ⟨v3, h3⟩ := pass3_go_total entries false ""
    (fun s hs h => hwt s hs (Or.inl h))
  obtain ⟨v4, h4⟩ := pass4_go_total entries false ""
    (fun s hs h => hwt s hs (Or.inr h))
  obtain ⟨u, hu⟩ := short_untracked_go_total entries
    (fun s hs h => hwt s hs (Or.inl h))
  constructor
  · rcases v1 with ⟨b1, rm, out1⟩
    rcases v3 with ⟨b3, out3⟩
    rcases v4 with ⟨b4, out4⟩
    unfold print_long
    rw [h1]
    dsimp only
    rw [h3]
    dsimp only
    rw [h4]
    exact ⟨_, rfl⟩
  · unfold print_short
    rw [hu]
    exact ⟨_, rfl⟩

/-- C9 witness: a staged-new entry plus an untracked entry satisfy the
preconditions, and both renderings succeed. -/
theorem C9_no_null_deref_witness :
    run_ok (print_long [stagedNewEntry, untrackedEntry]) = true ∧
    run_ok (print_short noSub [stagedNewEntry, untrackedEntry]) = true := by
  obtain ⟨h1, h2⟩ :=
    C9_no_null_deref noSub [stagedNewEntry, untrackedEntry] (by decide) (by decide)
  obtain ⟨o1, ho1⟩ := h1
  obtain ⟨o2, ho2⟩ := h2
  exact ⟨by rw [ho1]; rfl, by rw [ho2]; rfl⟩

/-! ## Claim C10: conflicted-only entries -/

/-- C10: an entry whose mask is exactly `GIT_STATUS_CONFLICTED` gets
two spaces as its XY code (no glyph rule consults the Conflicted bit)
and is printed by the short/porcelain renderer as spaces followed by
its path, while the long renderer emits nothing for it in any pass. -/
theorem C10_conflicted (ls : SubmoduleLookup) (s : StatusEntry) (d : DiffDelta)
    (p : String)
    (hst : s.status = Status.conflictedOnly)
    (hhti : s.head_to_index = some d)
    (hpath : d.old_file.path = some p)
    (hitw : s.index_to_workdir = none) :
    short_xy s.status = (' ', ' ') ∧
    short_entry_line ls s = some ("   " ++ p ++ "\n") ∧
    print_short ls [s] = Except.ok ("   " ++ p ++ "\n") ∧
    (∀ l1 l2, print_long (l1 ++ s :: l2) = print_long (l1 ++ l2)) := by
  have hxy : short_xy s.status = (' ', ' ') := by rw [hst]; decide
  have hline : short_entry_line ls s = some ("   " ++ p ++ "\n") := by
    unfold short_entry_line
    rw [if_neg (by rw [hst]; decide)]
    rw [hxy]
    dsimp only
    rw [if_neg (by decide)]
    unfold short_extra short_paths
    rw [hitw, hhti]
    dsimp only
    rw [hpath]
    rw [if_neg (by decide), if_neg (by decide)]
    refine congrArg some ?_
    rw [str_append_empty]
    rfl
  refine ⟨hxy, hline, ?_, ?_⟩
  · have hu : short_untracked_go [s] = Except.ok "" := by
      simp only [short_untracked_go, if_neg (show ¬s.status = Status.wtNewOnly by
        rw [hst]; decide)]
    have hm : short_main_pass ls [s] = "   " ++ p ++ "\n" := by
      simp only [short_main_pass, hline, Option.getD_some]
      exact str_append_empty _
    unfold print_short
    rw [hu]
    dsimp only
    rw [hm, str_append_empty]
  · intro l1 l2
    apply print_long_skip
    · rw [hst]; decide
    · rw [hst]; decide
    · exact Or.inr (Or.inl hitw)
    · rw [hst]; decide
    · rw [hst]; decide

/-- C10 witness: the concrete conflicted entry for path c.txt; the
long-renderer part instantiated at one concrete insertion. -/
theorem C10_conflicted_witness :
    short_xy conflictedEntry.status = (' ', ' ') ∧
    short_entry_line noSub conflictedEntry = some ("   " ++ "c.txt" ++ "\n") ∧
    print_short noSub [conflictedEntry] = Except.ok ("   " ++ "c.txt" ++ "\n") ∧
    print_long ([] ++ conflictedEntry :: [stagedNewEntry]) =
      print_long ([] ++ [stagedNewEntry]) :=
  have h := C10_conflicted noSub conflictedEntry
    ⟨⟨some "c.txt", 33188⟩, ⟨some "c.txt", 33188⟩⟩ "c.txt" rfl rfl rfl rfl
  ⟨h.1, h.2.1, h.2.2.1, h.2.2.2 [] [stagedNewEntry]⟩
